import Mathlib

/-!
Verification of the MYE-aydinlatma backend core: the checkout transaction
(`src/routes/payment.js`), the order-status state machine
(`src/routes/orders.js`) and brand creation with soft-delete restore
(`src/unnamed/part_005`, the brands router).

The JavaScript handlers are shallowly embedded as pure Lean functions over an
explicit database state.  Each SQL statement of the source becomes an explicit
list operation; a rolled-back transaction returns the original state.
JavaScript truthiness of the request fields is modelled explicitly
(`Option` for absent fields, `0` / `""` falsy).
-/

/-- Stock status labels of the `products.stock_status` column. -/
inductive StockStatus
  | in_stock
  | low_stock
  | out_of_stock
deriving DecidableEq, Repr

/-- New stock status computed by the checkout loop in `payment.js`
(lines 380-385): `0` gives `out_of_stock`, `<= 10` gives `low_stock`,
otherwise `in_stock`. -/
def stockStatusOf (newStock : Nat) : StockStatus :=
  if newStock = 0 then .out_of_stock
  else if newStock ≤ 10 then .low_stock
  else .in_stock

/-- Order status values (`orders.js` `validStatuses` and the status catalog). -/
inductive OrderStatus
  | order_received
  | preparing
  | shipped
  | returned
  | cancelled
  | completed
deriving DecidableEq, Repr, Fintype

/-- Allowed transitions table from `isValidStatusTransition` in `orders.js`
(lines 90-97). -/
def allowedTransitions : OrderStatus → List OrderStatus
  | .order_received => [.preparing, .cancelled]
  | .preparing => [.shipped, .cancelled]
  | .shipped => [.completed, .returned]
  | .returned => [.completed, .cancelled]
  | .cancelled => []
  | .completed => []

/-- `isValidStatusTransition(oldStatus, newStatus)` from `orders.js`
(lines 88-106): a missing old status permits anything, otherwise the pair
must be in the transition table. -/
def isValidStatusTransition (oldStatus : Option OrderStatus) (newStatus : OrderStatus) : Bool :=
  match oldStatus with
  | none => true
  | some s => decide (newStatus ∈ allowedTransitions s)

/-- String form of a status, as stored in the database. -/
def statusString : OrderStatus → String
  | .order_received => "order_received"
  | .preparing => "preparing"
  | .shipped => "shipped"
  | .returned => "returned"
  | .cancelled => "cancelled"
  | .completed => "completed"

/-- Parse a request status string against the `validStatuses` list of the
PATCH handlers; anything outside the six known values is rejected. -/
def statusFromString (s : String) : Option OrderStatus :=
  if s = "order_received" then some .order_received
  else if s = "preparing" then some .preparing
  else if s = "shipped" then some .shipped
  else if s = "returned" then some .returned
  else if s = "cancelled" then some .cancelled
  else if s = "completed" then some .completed
  else none

/-- A row of `products` (the columns the checkout loop reads and writes). -/
structure Product where
  id : Nat
  stock_quantity : Nat
  stock_status : StockStatus
  is_deleted : Bool
deriving DecidableEq, Repr

/-- A row of `users`. -/
structure UserRow where
  id : Nat
  first_name : String
  last_name : String
  email : String
  phone : String
deriving DecidableEq, Repr

/-- A row of `orders`. -/
structure OrderRow where
  id : Nat
  order_number : String
  user_id : Nat
  total_price : Int
  kdv : Int
  grand_total : Int
  status : OrderStatus
  updated_at : Nat
deriving DecidableEq, Repr

/-- A row of `order_items`. -/
structure OrderItemRow where
  order_id : Nat
  product_id : Option Nat
  product_name : String
  product_price : Int
  quantity : Nat
  product_image : Option String
deriving DecidableEq, Repr

/-- A row of `delivery_addresses`. -/
structure DeliveryAddressRow where
  order_id : Nat
  address : String
  city : String
  district : String
  postal_code : Option String
deriving DecidableEq, Repr

/-- A row of `payment_info`: per the migrated schema it carries only the
order reference and a payment status — there are no card columns. -/
structure PaymentInfoRow where
  order_id : Nat
  payment_status : String
deriving DecidableEq, Repr

/-- A row of `order_status_history`. -/
structure HistoryRow where
  order_id : Nat
  old_status : Option OrderStatus
  new_status : OrderStatus
  changed_by : String
  notes : Option String
deriving DecidableEq, Repr

/-- A brand row (`brands` table). -/
structure Brand where
  id : Nat
  name : String
  is_deleted : Bool
deriving DecidableEq, Repr

/-- The relational store as seen by the routes under verification.
`notifications` records the delivered status-change emails
(`sendStatusChangeEmail` in `orders.js`); it is not a database table but
lets the model express that notification delivery is fire-and-forget. -/
structure DB where
  users : List UserRow
  products : List Product
  orders : List OrderRow
  order_items : List OrderItemRow
  delivery_addresses : List DeliveryAddressRow
  payment_info : List PaymentInfoRow
  order_status_history : List HistoryRow
  notifications : List (Nat × OrderStatus × OrderStatus)
deriving DecidableEq, Repr

/-- JavaScript truthiness of an optional string field (`""` is falsy). -/
def truthyStr : Option String → Bool
  | none => false
  | some s => s ≠ ""

/-- JavaScript truthiness of an optional numeric field (`0` is falsy). -/
def truthyNum : Option Int → Bool
  | none => false
  | some n => n ≠ 0

/-- JavaScript `x || null` on an optional string: an empty string collapses
to null (used for `postalCode`, `image` and `notes`). -/
def jsStrOrNull : Option String → Option String
  | none => none
  | some s => if s = "" then none else some s

/-- JavaScript `o || d` on an optional number: falsy (absent or `0`) falls
through to the default. -/
def truthyOrElse : Option Int → Int → Int
  | none, d => d
  | some n, d => if n = 0 then d else n

/-- The `personalInfo` section of a checkout payload. -/
structure PersonalInfo where
  firstName : Option String
  lastName : Option String
  email : Option String
  phone : Option String
deriving DecidableEq, Repr

/-- The `deliveryAddress` section of a checkout payload. -/
structure DeliveryAddressInput where
  address : Option String
  city : Option String
  district : Option String
  postalCode : Option String
deriving DecidableEq, Repr

/-- The `paymentInfo` section of a checkout payload (card shape, validated
then discarded). -/
structure PaymentInput where
  cardNumber : Option String
  cardName : Option String
  expiryDate : Option String
  cvv : Option String
deriving DecidableEq, Repr

/-- A cart item.  `id` is the parsed `product_id` (`item.id ? parseInt(item.id)
: null`): `none` models an absent or falsy-number id. -/
structure CartItem where
  id : Option Nat
  name : String
  price : Option Int
  currentPrice : Option Int
  quantity : Nat
  image : Option String
deriving DecidableEq, Repr

/-- The `cartItems` field: a JSON array or some other (truthy) value, which
`Array.isArray` rejects. -/
inductive CartItemsVal
  | nonList
  | items (l : List CartItem)
deriving DecidableEq, Repr

/-- A checkout request body.  `none` marks an absent (or falsy) section. -/
structure CheckoutPayload where
  personalInfo : Option PersonalInfo
  deliveryAddress : Option DeliveryAddressInput
  paymentInfo : Option PaymentInput
  cartItems : Option CartItemsVal
  totalPrice : Option Int
  kdv : Option Int
  grandTotal : Option Int
deriving DecidableEq, Repr

/-- Top-level presence check of `payment.js` line 187-188:
`!personalInfo || !deliveryAddress || !paymentInfo || !cartItems ||
!totalPrice || kdv === undefined || !grandTotal`, negated. -/
def topFieldsOk (p : CheckoutPayload) : Bool :=
  p.personalInfo.isSome && p.deliveryAddress.isSome && p.paymentInfo.isSome &&
  p.cartItems.isSome && truthyNum p.totalPrice && p.kdv.isSome && truthyNum p.grandTotal

/-- `personalInfo` field check of `payment.js` line 197-198. -/
def personalInfoOk (pi : PersonalInfo) : Bool :=
  truthyStr pi.firstName && truthyStr pi.lastName && truthyStr pi.email && truthyStr pi.phone

/-- `deliveryAddress` field check of `payment.js` line 207. -/
def deliveryAddressOk (da : DeliveryAddressInput) : Bool :=
  truthyStr da.address && truthyStr da.city && truthyStr da.district

/-- `paymentInfo` field check of `payment.js` line 217-218 (shape only; the
values are never written anywhere). -/
def paymentInfoOk (pay : PaymentInput) : Bool :=
  truthyStr pay.cardNumber && truthyStr pay.cardName &&
  truthyStr pay.expiryDate && truthyStr pay.cvv

/-- Responses of the POST payment handler. -/
inductive CheckoutResponse
  | created (orderId : Nat) (orderNumber : String) (grandTotal : Int)
  | missingFields
  | missingPersonalInfo
  | missingDeliveryAddress
  | missingPaymentInfo
  | emptyCart
  | insufficientStock (itemName : String) (available : Nat) (requested : Nat)
deriving DecidableEq, Repr

/-- HTTP status code of each checkout response (201 on success, 400
otherwise). -/
def CheckoutResponse.statusCode : CheckoutResponse → Nat
  | .created _ _ _ => 201
  | _ => 400

/-- `item.currentPrice || item.price || 0` from `payment.js` line 337. -/
def CartItem.productPrice (it : CartItem) : Int :=
  truthyOrElse it.currentPrice (truthyOrElse it.price 0)

/-- The `if (productId)` guard of `payment.js` line 355: the stock side
effect runs only for a truthy (nonzero, present) parsed product id. -/
def stockGuardId (it : CartItem) : Option Nat :=
  match it.id with
  | none => none
  | some n => if n = 0 then none else some n

/-- `SELECT ... FROM products WHERE id = $1 AND is_deleted = FALSE`. -/
def findActiveProduct (prods : List Product) (pid : Nat) : Option Product :=
  prods.find? (fun pr => pr.id == pid && !pr.is_deleted)

/-- `UPDATE products SET stock_quantity, stock_status WHERE id = $3 AND
is_deleted = FALSE`. -/
def applyStock (prods : List Product) (pid : Nat) (newStock : Nat) : List Product :=
  prods.map (fun pr =>
    if pr.id == pid && !pr.is_deleted then
      { pr with stock_quantity := newStock, stock_status := stockStatusOf newStock }
    else pr)

/-- The `order_items` row inserted for a cart item (`payment.js` lines
340-352). -/
def mkOrderItemRow (orderId : Nat) (it : CartItem) : OrderItemRow :=
  { order_id := orderId
    product_id := it.id
    product_name := it.name
    product_price := it.productPrice
    quantity := it.quantity
    product_image := jsStrOrNull it.image }

/-- The state after inserting the `order_items` snapshot row of one cart
item. -/
def insertItemRow (orderId : Nat) (db : DB) (it : CartItem) : DB :=
  { db with order_items := db.order_items ++ [mkOrderItemRow orderId it] }

/-- One iteration of the cart loop (`payment.js` lines 332-400): insert the
order-item snapshot, then, when the item carries a truthy product id that
resolves to a live product, check stock and either abort (insufficient) or
decrement and recompute the status.  The stock read happens after the row
insert in the source, which cannot change `products`, so it reads
`db.products`.  An `Except.error` carries the offending item name, the
available and the requested quantity. -/
def processItem (orderId : Nat) (db : DB) (it : CartItem) :
    Except (String × Nat × Nat) DB :=
  match stockGuardId it with
  | none => .ok (insertItemRow orderId db it)
  | some pid =>
    match findActiveProduct db.products pid with
    | none => .ok (insertItemRow orderId db it)
    | some prod =>
      if prod.stock_quantity < it.quantity then
        .error (it.name, prod.stock_quantity, it.quantity)
      else
        .ok { insertItemRow orderId db it with
              products := applyStock db.products pid (prod.stock_quantity - it.quantity) }

/-- The whole cart loop; the first failing item aborts. -/
def processItems (orderId : Nat) (db : DB) : List CartItem → Except (String × Nat × Nat) DB
  | [] => .ok db
  | it :: rest =>
    match processItem orderId db it with
    | .error e => .error e
    | .ok db1 => processItems orderId db1 rest

/-- User upsert of `payment.js` lines 242-273: look up by email; insert a new
user or refresh name and phone of the existing one.  Returns the attributed
user id together with the new state. -/
def upsertUser (db : DB) (pi : PersonalInfo) (newUserId : Nat) : Nat × DB :=
  match db.users.find? (fun u => some u.email == pi.email) with
  | none =>
    (newUserId,
     { db with users := db.users ++
        [{ id := newUserId
           first_name := pi.firstName.getD ""
           last_name := pi.lastName.getD ""
           email := pi.email.getD ""
           phone := pi.phone.getD "" }] })
  | some u =>
    (u.id,
     { db with users := db.users.map (fun v =>
        if v.id == u.id then
          { v with first_name := pi.firstName.getD ""
                   last_name := pi.lastName.getD ""
                   phone := pi.phone.getD "" }
        else v) })

/-- The writes of `payment.js` lines 242-329 executed before the cart loop:
user upsert, the order row (status `order_received`), its initial history
row, the delivery address and the card-free payment row. -/
def checkoutWrites (db : DB) (p : CheckoutPayload) (pi : PersonalInfo)
    (da : DeliveryAddressInput) (orderNumber : String)
    (newUserId newOrderId now : Nat) : DB :=
  let res := upsertUser db pi newUserId
  let db1 : DB := res.2
  let db2 : DB := { db1 with orders := db1.orders ++
      [{ id := newOrderId
         order_number := orderNumber
         user_id := res.1
         total_price := p.totalPrice.getD 0
         kdv := p.kdv.getD 0
         grand_total := p.grandTotal.getD 0
         status := .order_received
         updated_at := now }] }
  let db3 : DB := { db2 with order_status_history := db2.order_status_history ++
      [{ order_id := newOrderId
         old_status := none
         new_status := .order_received
         changed_by := "system"
         notes := some "Sipariş oluşturuldu" }] }
  let db4 : DB := { db3 with delivery_addresses := db3.delivery_addresses ++
      [{ order_id := newOrderId
         address := da.address.getD ""
         city := da.city.getD ""
         district := da.district.getD ""
         postal_code := jsStrOrNull da.postalCode }] }
  { db4 with payment_info := db4.payment_info ++
      [{ order_id := newOrderId, payment_status := "completed" }] }

/-- The POST payment handler (`payment.js` lines 170-426) as a state
transformer.  `orderNumber`, `newUserId`, `newOrderId` and `now` stand for
the generated order number, the fresh row ids and the clock.  Every rejected
branch rolls the transaction back, returning the original state. -/
def checkout (db : DB) (p : CheckoutPayload) (orderNumber : String)
    (newUserId newOrderId now : Nat) : CheckoutResponse × DB :=
  if !topFieldsOk p then (.missingFields, db)
  else
    match p.personalInfo, p.deliveryAddress, p.paymentInfo, p.cartItems with
    | some pi, some da, some pay, some cart =>
      if !personalInfoOk pi then (.missingPersonalInfo, db)
      else if !deliveryAddressOk da then (.missingDeliveryAddress, db)
      else if !paymentInfoOk pay then (.missingPaymentInfo, db)
      else
        match cart with
        | .nonList => (.emptyCart, db)
        | .items l =>
          if l.isEmpty then (.emptyCart, db)
          else
            match processItems newOrderId
                (checkoutWrites db p pi da orderNumber newUserId newOrderId now) l with
            | .error e => (.insufficientStock e.1 e.2.1 e.2.2, db)
            | .ok db6 => (.created newOrderId orderNumber (p.grandTotal.getD 0), db6)
    | _, _, _, _ => (.missingFields, db)

/-- Responses of the PATCH status handlers in `orders.js`. -/
inductive StatusUpdateResponse
  | invalidStatus
  | orderNotFound
  | alreadyInStatus
  | invalidTransition (allowed : List OrderStatus)
  | updated (order : OrderRow)
  | serverError
deriving DecidableEq, Repr

/-- The allowed-target list embedded in the rejection message of the PATCH
handlers (`orders.js` line 848): each of the six statuses is named exactly
when `isValidStatusTransition` accepts it from the current one. -/
def reachableTargets (s : OrderStatus) : List OrderStatus :=
  [OrderStatus.order_received, .preparing, .shipped, .returned, .cancelled,
   .completed].filter (fun t => isValidStatusTransition (some s) t)

/-- The PATCH `/:id/status` handler (`orders.js` lines 808-890) as a state
transformer.  `reqStatus` is the request body's `status` string (`none` when
absent), `txOk` tells whether the UPDATE/INSERT transaction commits (on
failure everything is rolled back and a 500 returned), and `notifyOk`
whether the fire-and-forget status-change email is delivered — delivery
only appends to the notification log and can affect nothing else. -/
def updateOrderStatus (db : DB) (orderId : Nat) (reqStatus : Option String)
    (notes : Option String) (changedBy : String) (now : Nat)
    (txOk notifyOk : Bool) : StatusUpdateResponse × DB :=
  match reqStatus.bind statusFromString with
  | none => (.invalidStatus, db)
  | some st =>
    match db.orders.find? (fun o => o.id == orderId) with
    | none => (.orderNotFound, db)
    | some ord =>
      if ord.status = st then (.alreadyInStatus, db)
      else if !isValidStatusTransition (some ord.status) st then
        (.invalidTransition (reachableTargets ord.status), db)
      else if txOk then
        let db1 : DB := { db with
          orders := db.orders.map (fun o =>
            if o.id == orderId then { o with status := st, updated_at := now } else o)
          order_status_history := db.order_status_history ++
            [{ order_id := orderId
               old_status := some ord.status
               new_status := st
               changed_by := changedBy
               notes := jsStrOrNull notes }] }
        let db2 : DB :=
          if notifyOk then
            { db1 with notifications := db1.notifications ++ [(orderId, ord.status, st)] }
          else db1
        (.updated { ord with status := st, updated_at := now }, db2)
      else (.serverError, db)

/-- Responses of the POST brands handler (`src/unnamed/part_005`). -/
inductive BrandResponse
  | nameRequired
  | restored (b : Brand)
  | duplicate
  | created (b : Brand)
deriving DecidableEq, Repr

/-- JavaScript `String.prototype.trim`: strip leading and trailing
whitespace (modelled structurally so that concrete instances evaluate). -/
def jsTrim (s : String) : String :=
  ⟨((s.data.dropWhile (fun c => c.isWhitespace)).reverse.dropWhile
      (fun c => c.isWhitespace)).reverse⟩

/-- The POST `/api/brands` handler (`part_005` lines 120-177): reject a
missing or blank name; if a brand row with the trimmed name exists, either
restore it (flip `is_deleted` on the same row) when it was soft-deleted or
reject as a duplicate; otherwise insert a fresh row. -/
def createBrand (brands : List Brand) (reqName : Option String) (newId : Nat) :
    BrandResponse × List Brand :=
  match reqName with
  | none => (.nameRequired, brands)
  | some name =>
    if name = "" || jsTrim name = "" then (.nameRequired, brands)
    else
      match brands.find? (fun b => b.name == jsTrim name) with
      | some b =>
        if b.is_deleted then
          (.restored { b with is_deleted := false },
           brands.map (fun x => if x.id == b.id then { x with is_deleted := false } else x))
        else (.duplicate, brands)
      | none =>
        (.created { id := newId, name := jsTrim name, is_deleted := false },
         brands ++ [{ id := newId, name := jsTrim name, is_deleted := false }])

/-- Transition pairs exactly as enumerated in the specification transition
table (section 4.2), written independently of `allowedTransitions`. -/
def specTransitionPairs : List (OrderStatus × OrderStatus) :=
  [(.order_received, .preparing), (.order_received, .cancelled),
   (.preparing, .shipped), (.preparing, .cancelled),
   (.shipped, .completed), (.shipped, .returned),
   (.returned, .completed), (.returned, .cancelled)]

/-- Concrete fixture: a live product with stock 5 (spec section 8 example). -/
def wProduct : Product := { id := 7, stock_quantity := 5, stock_status := .in_stock, is_deleted := false }

/-- Concrete fixture: a cart item requesting 3 units of product 7. -/
def wItem : CartItem := { id := some 7, name := "MCB 16A", price := some 55, currentPrice := none, quantity := 3, image := none }

/-- Concrete fixture: a cart item with no product reference. -/
def wItemNoRef : CartItem := { id := none, name := "Custom item", price := some 10, currentPrice := none, quantity := 1, image := none }

/-- Concrete fixture: a complete personal-info section. -/
def wPersonal : PersonalInfo := { firstName := some "Ada", lastName := some "Yilmaz", email := some "ada@example.com", phone := some "0555" }

/-- Concrete fixture: a complete delivery address. -/
def wAddress : DeliveryAddressInput := { address := some "Cumhuriyet Mah.", city := some "Istanbul", district := some "Kadikoy", postalCode := none }

/-- Concrete fixture: a card section. -/
def wCard : PaymentInput := { cardNumber := some "4111", cardName := some "ADA", expiryDate := some "12/28", cvv := some "123" }

/-- Concrete fixture: a different card section. -/
def wCard2 : PaymentInput := { cardNumber := some "5500", cardName := some "VEDAT", expiryDate := some "01/30", cvv := some "999" }

/-- Concrete fixture: a fully valid checkout payload. -/
def wPayload : CheckoutPayload := { personalInfo := some wPersonal, deliveryAddress := some wAddress, paymentInfo := some wCard, cartItems := some (.items [wItem]), totalPrice := some 168, kdv := some 33, grandTotal := some 201 }

/-- Concrete fixture: a store holding only product 7 with stock 5. -/
def wDB : DB := { users := [], products := [wProduct], orders := [], order_items := [], delivery_addresses := [], payment_info := [], order_status_history := [], notifications := [] }

/-- Concrete fixture: same store but stock 2 (below the requested 3). -/
def wDBLow : DB := { wDB with products := [{ wProduct with stock_quantity := 2 }] }

/-- Concrete fixture: the state produced by the successful fixture checkout. -/
def wDBAfter : DB := (checkout wDB wPayload "MYE-1" 100 200 0).2

/-- Concrete fixture: an order in its initial status. -/
def wOrder : OrderRow := { id := 1, order_number := "MYE-1", user_id := 100, total_price := 168, kdv := 33, grand_total := 201, status := .order_received, updated_at := 0 }

/-- Concrete fixture: a store holding only that order. -/
def wDBOrders : DB := { wDB with products := [], orders := [wOrder] }

/-- Concrete fixture: a soft-deleted brand row. -/
def wBrandDeleted : Brand := { id := 1, name := "ABB", is_deleted := true }

/-- Concrete fixture: a live brand row. -/
def wBrandLive : Brand := { id := 2, name := "SIEMENS", is_deleted := false }

/-- The order row inserted by checkout. -/
def newOrderRow (p : CheckoutPayload) (orderNumber : String)
    (userId newOrderId now : Nat) : OrderRow :=
  { id := newOrderId
    order_number := orderNumber
    user_id := userId
    total_price := p.totalPrice.getD 0
    kdv := p.kdv.getD 0
    grand_total := p.grandTotal.getD 0
    status := .order_received
    updated_at := now }

/-- Replace the card section of a payload (all other fields unchanged). -/
def setPaymentInfo (p : CheckoutPayload) (pay : PaymentInput) : CheckoutPayload :=
  { p with paymentInfo := some pay }

/-- A cart item is insufficiently stocked in a given state: it carries a
truthy product id resolving to a live product whose quantity is strictly
below the requested one. -/
def itemInsufficient (db : DB) (it : CartItem) : Prop :=
  ∃ pid pr, stockGuardId it = some pid ∧ findActiveProduct db.products pid = some pr ∧
    pr.stock_quantity < it.quantity

theorem processItem_ok_tables {oid : Nat} {db : DB} {it : CartItem} {db' : DB}
    (h : processItem oid db it = .ok db') :
    db'.users = db.users ∧ db'.orders = db.orders ∧
    db'.delivery_addresses = db.delivery_addresses ∧
    db'.payment_info = db.payment_info ∧
    db'.order_status_history = db.order_status_history ∧
    db'.notifications = db.notifications ∧
    db'.order_items = db.order_items ++ [mkOrderItemRow oid it] := by
  unfold processItem at h
  split at h
  · cases h
    simp [insertItemRow]
  · split at h
    · cases h
      simp [insertItemRow]
    · split at h
      · cases h
      · cases h
        simp [insertItemRow]

theorem processItem_ok_products {oid : Nat} {db : DB} {it : CartItem} {db' : DB}
    (h : processItem oid db it = .ok db') :
    db'.products = db.products ∨
    ∃ pid prod, stockGuardId it = some pid ∧
      findActiveProduct db.products pid = some prod ∧
      it.quantity ≤ prod.stock_quantity ∧
      db'.products = applyStock db.products pid (prod.stock_quantity - it.quantity) := by
  unfold processItem at h
  split at h
  · cases h; left; simp [insertItemRow]
  · rename_i pid hpid
    split at h
    · cases h; left; simp [insertItemRow]
    · rename_i prod hprod
      split at h
      · cases h
      · rename_i hstock
        cases h
        right
        exact ⟨pid, prod, hpid, hprod, Nat.le_of_not_lt hstock, rfl⟩

theorem findActiveProduct_applyStock (prods : List Product) (pid0 ns pid : Nat) :
    findActiveProduct (applyStock prods pid0 ns) pid =
      (findActiveProduct prods pid).map (fun pr =>
        if pr.id == pid0 && !pr.is_deleted then
          { pr with stock_quantity := ns, stock_status := stockStatusOf ns }
        else pr) := by
  unfold findActiveProduct applyStock
  rw [List.find?_map]
  have hcomp : ((fun pr : Product => pr.id == pid && !pr.is_deleted) ∘ fun pr =>
      if pr.id == pid0 && !pr.is_deleted then
        { pr with stock_quantity := ns, stock_status := stockStatusOf ns }
      else pr) = fun pr : Product => pr.id == pid && !pr.is_deleted := by
    funext pr
    by_cases hc : (pr.id == pid0 && !pr.is_deleted) = true
    · simp [Function.comp, hc]
    · simp [Function.comp, hc]
  rw [hcomp]

theorem processItem_ok_preserves_insufficient {oid : Nat} {db : DB} {it it2 : CartItem}
    {db' : DB} (h : processItem oid db it = .ok db')
    (hbad : itemInsufficient db it2) : itemInsufficient db' it2 := by
  obtain ⟨pid, pr, hg, hf, hlt⟩ := hbad
  rcases processItem_ok_products h with hsame | ⟨pid0, prod, hg0, hf0, hle, heq⟩
  · exact ⟨pid, pr, hg, hsame ▸ hf, hlt⟩
  · have hfind := findActiveProduct_applyStock db.products pid0
      (prod.stock_quantity - it.quantity) pid
    rw [hf, ← heq] at hfind
    simp only [Option.map_some'] at hfind
    by_cases hmatch : (pr.id == pid0 && !pr.is_deleted) = true
    · rw [if_pos hmatch] at hfind
      have hprid : pr.id = pid := by
        have hp := List.find?_some hf
        simp only [Bool.and_eq_true, beq_iff_eq] at hp
        exact hp.1
      have hpid0 : pid = pid0 := by
        simp only [Bool.and_eq_true, beq_iff_eq] at hmatch
        omega
      have hprodpr : prod = pr := by
        rw [hpid0] at hf
        have := hf0.symm.trans hf
        exact Option.some_injective _ this
      refine ⟨pid, _, hg, hfind, ?_⟩
      show prod.stock_quantity - it.quantity < it2.quantity
      rw [hprodpr]
      omega
    · rw [if_neg hmatch] at hfind
      exact ⟨pid, pr, hg, hfind, hlt⟩

theorem processItem_insufficient_error {oid : Nat} {db : DB} {it : CartItem}
    (hbad : itemInsufficient db it) :
    ∃ e, processItem oid db it = .error e ∧ e.1 = it.name ∧ e.2.1 < e.2.2 := by
  obtain ⟨pid, pr, hg, hf, hlt⟩ := hbad
  refine ⟨(it.name, pr.stock_quantity, it.quantity), ?_, rfl, hlt⟩
  unfold processItem
  simp only [hg, hf]
  simp [hlt]

theorem processItem_error_shape {oid : Nat} {db : DB} {it : CartItem}
    {e : String × Nat × Nat} (h : processItem oid db it = .error e) :
    e.1 = it.name ∧ e.2.1 < e.2.2 := by
  unfold processItem at h
  split at h
  · cases h
  · split at h
    · cases h
    · split at h
      · rename_i hlt
        cases h
        exact ⟨rfl, hlt⟩
      · cases h

theorem processItems_ok_tables {oid : Nat} {l : List CartItem} {db db' : DB}
    (h : processItems oid db l = .ok db') :
    db'.users = db.users ∧ db'.orders = db.orders ∧
    db'.delivery_addresses = db.delivery_addresses ∧
    db'.payment_info = db.payment_info ∧
    db'.order_status_history = db.order_status_history ∧
    db'.notifications = db.notifications ∧
    db'.order_items = db.order_items ++ l.map (mkOrderItemRow oid) := by
  induction l generalizing db with
  | nil =>
    unfold processItems at h
    cases h
    simp
  | cons it rest ih =>
    unfold processItems at h
    split at h
    · cases h
    · rename_i db1 hok
      obtain ⟨h1, h2, h3, h4, h5, h6, h7⟩ := processItem_ok_tables hok
      obtain ⟨g1, g2, g3, g4, g5, g6, g7⟩ := ih h
      refine ⟨g1.trans h1, g2.trans h2, g3.trans h3, g4.trans h4, g5.trans h5,
        g6.trans h6, ?_⟩
      rw [g7, h7]
      simp

theorem processItems_insufficient {oid : Nat} {l : List CartItem} {db : DB}
    (hbad : ∃ it ∈ l, itemInsufficient db it) :
    ∃ e, processItems oid db l = .error e ∧ e.2.1 < e.2.2 ∧
      ∃ it ∈ l, it.name = e.1 := by
  induction l generalizing db with
  | nil => obtain ⟨it, hmem, _⟩ := hbad; cases hmem
  | cons it rest ih =>
    obtain ⟨w, hmem, hw⟩ := hbad
    rcases List.mem_cons.mp hmem with rfl | hrest
    · obtain ⟨e, he, hn, hlt⟩ := @processItem_insufficient_error oid db w hw
      refine ⟨e, ?_, hlt, w, List.mem_cons_self _ _, hn.symm⟩
      unfold processItems
      simp [he]
    · cases hpi : processItem oid db it with
      | error e =>
        obtain ⟨hn, hlt⟩ := processItem_error_shape hpi
        refine ⟨e, ?_, hlt, it, List.mem_cons_self _ _, hn.symm⟩
        unfold processItems
        simp [hpi]
      | ok db1 =>
        obtain ⟨e, he, hlt, w2, hmem2, hn2⟩ :=
          ih ⟨w, hrest, processItem_ok_preserves_insufficient hpi hw⟩
        refine ⟨e, ?_, hlt, w2, List.mem_cons_of_mem _ hmem2, hn2⟩
        unfold processItems
        simp [hpi, he]

theorem upsertUser_tables (db : DB) (pi : PersonalInfo) (uid : Nat) :
    (upsertUser db pi uid).2.products = db.products ∧
    (upsertUser db pi uid).2.orders = db.orders ∧
    (upsertUser db pi uid).2.order_items = db.order_items ∧
    (upsertUser db pi uid).2.delivery_addresses = db.delivery_addresses ∧
    (upsertUser db pi uid).2.payment_info = db.payment_info ∧
    (upsertUser db pi uid).2.order_status_history = db.order_status_history ∧
    (upsertUser db pi uid).2.notifications = db.notifications := by
  unfold upsertUser
  split <;> simp

theorem checkoutWrites_fields (db : DB) (p : CheckoutPayload) (pi : PersonalInfo)
    (da : DeliveryAddressInput) (onum : String) (uid oid now : Nat) :
    (checkoutWrites db p pi da onum uid oid now).products = db.products ∧
    (checkoutWrites db p pi da onum uid oid now).orders =
      db.orders ++ [newOrderRow p onum (upsertUser db pi uid).1 oid now] ∧
    (checkoutWrites db p pi da onum uid oid now).order_items = db.order_items ∧
    (checkoutWrites db p pi da onum uid oid now).delivery_addresses =
      db.delivery_addresses ++
        [{ order_id := oid
           address := da.address.getD ""
           city := da.city.getD ""
           district := da.district.getD ""
           postal_code := jsStrOrNull da.postalCode }] ∧
    (checkoutWrites db p pi da onum uid oid now).payment_info =
      db.payment_info ++ [{ order_id := oid, payment_status := "completed" }] ∧
    (checkoutWrites db p pi da onum uid oid now).order_status_history =
      db.order_status_history ++
        [{ order_id := oid
           old_status := none
           new_status := .order_received
           changed_by := "system"
           notes := some "Sipariş oluşturuldu" }] ∧
    (checkoutWrites db p pi da onum uid oid now).notifications = db.notifications := by
  obtain ⟨t1, t2, t3, t4, t5, t6, t7⟩ := upsertUser_tables db pi uid
  unfold checkoutWrites newOrderRow
  simp [t1, t2, t3, t4, t5, t6, t7]

theorem checkout_created_inversion {db : DB} {p : CheckoutPayload} {onum : String}
    {uid oid now : Nat} {rid : Nat} {rnum : String} {rtot : Int} {db' : DB}
    (h : checkout db p onum uid oid now = (.created rid rnum rtot, db')) :
    rid = oid ∧ rnum = onum ∧ rtot = p.grandTotal.getD 0 ∧
    topFieldsOk p = true ∧
    ∃ pi da pay l,
      p.personalInfo = some pi ∧ p.deliveryAddress = some da ∧
      p.paymentInfo = some pay ∧ p.cartItems = some (.items l) ∧
      personalInfoOk pi = true ∧ deliveryAddressOk da = true ∧
      paymentInfoOk pay = true ∧ l ≠ [] ∧
      processItems oid (checkoutWrites db p pi da onum uid oid now) l = .ok db' := by
  unfold checkout at h
  split at h
  · simp at h
  · rename_i htop
    rw [Bool.not_eq_true', Bool.not_eq_false] at htop
    split at h
    · rename_i pi da pay cart hpi hda hpay hcart
      split at h
      · simp at h
      · rename_i hpiok
        rw [Bool.not_eq_true', Bool.not_eq_false] at hpiok
        split at h
        · simp at h
        · rename_i hdaok
          rw [Bool.not_eq_true', Bool.not_eq_false] at hdaok
          split at h
          · simp at h
          · rename_i hpayok
            rw [Bool.not_eq_true', Bool.not_eq_false] at hpayok
            split at h
            · simp at h
            · rename_i l
              split at h
              · simp at h
              · rename_i hne
                split at h
                · simp at h
                · rename_i db6 hok
                  simp only [Prod.mk.injEq, CheckoutResponse.created.injEq] at h
                  obtain ⟨⟨hrid, hrnum, hrtot⟩, hdb⟩ := h
                  subst hdb
                  exact ⟨hrid.symm, hrnum.symm, hrtot.symm, htop,
                    pi, da, pay, l, hpi, hda, hpay, hcart, hpiok, hdaok, hpayok,
                    by simpa using hne, hok⟩
    · rename_i hfall
      simp at h

theorem checkoutWrites_totals_only (db : DB) (p q : CheckoutPayload) (pi : PersonalInfo)
    (da : DeliveryAddressInput) (onum : String) (uid oid now : Nat)
    (h1 : p.totalPrice = q.totalPrice) (h2 : p.kdv = q.kdv)
    (h3 : p.grandTotal = q.grandTotal) :
    checkoutWrites db p pi da onum uid oid now = checkoutWrites db q pi da onum uid oid now := by
  unfold checkoutWrites
  rw [h1, h2, h3]

theorem checkout_payment_irrelevant (db : DB) (p : CheckoutPayload) (onum : String)
    (uid oid now : Nat) (pay pay' : PaymentInput)
    (hp : p.paymentInfo = some pay)
    (hok : paymentInfoOk pay = true) (hok' : paymentInfoOk pay' = true) :
    checkout db (setPaymentInfo p pay') onum uid oid now =
      checkout db p onum uid oid now := by
  obtain ⟨f1, f2, f3, f4, f5, f6, f7⟩ := p
  simp only at hp
  subst hp
  cases f1 with
  | none => rfl
  | some pi =>
    cases f2 with
    | none => rfl
    | some da =>
      cases f4 with
      | none => rfl
      | some cart =>
        have hw : checkoutWrites db (setPaymentInfo ⟨some pi, some da, some pay,
              some cart, f5, f6, f7⟩ pay') pi da onum uid oid now =
            checkoutWrites db ⟨some pi, some da, some pay, some cart, f5, f6, f7⟩
              pi da onum uid oid now :=
          checkoutWrites_totals_only _ _ _ _ _ _ _ _ _ rfl rfl rfl
        simp only [setPaymentInfo] at hw
        simp [checkout, setPaymentInfo, topFieldsOk, hok, hok', hw]

/-- C4: the status transition predicate accepts exactly the pairs of the
specification transition table over the six states; `cancelled` and
`completed` are terminal, and `order_received → completed` directly is
rejected. -/
theorem transition_predicate_matches_spec_table :
    (∀ s t : OrderStatus,
      isValidStatusTransition (some s) t = specTransitionPairs.contains (s, t)) ∧
    isValidStatusTransition (some .order_received) .completed = false ∧
    (∀ t : OrderStatus, isValidStatusTransition (some .cancelled) t = false) ∧
    (∀ t : OrderStatus, isValidStatusTransition (some .completed) t = false) := by
  refine ⟨?_, ?_, ?_, ?_⟩ <;> decide

/-- C3: when a checkout order item resolves to a live product with enough
stock, the product's new quantity is current minus requested and its new
status is a pure function of that quantity: 0 gives `out_of_stock`,
1 to 10 gives `low_stock`, above 10 gives `in_stock`. -/
theorem stock_update_pure_of_new_quantity
    (oid : Nat) (db : DB) (it : CartItem) (pid : Nat) (pr : Product)
    (hg : stockGuardId it = some pid)
    (hf : findActiveProduct db.products pid = some pr)
    (hs : it.quantity ≤ pr.stock_quantity) :
    ∃ db', processItem oid db it = .ok db' ∧
      findActiveProduct db'.products pid =
        some { pr with stock_quantity := pr.stock_quantity - it.quantity,
                       stock_status := stockStatusOf (pr.stock_quantity - it.quantity) } ∧
      (∀ n : Nat, (n = 0 → stockStatusOf n = .out_of_stock) ∧
        (0 < n → n ≤ 10 → stockStatusOf n = .low_stock) ∧
        (10 < n → stockStatusOf n = .in_stock)) := by
  have hcond := List.find?_some hf
  have hpi : processItem oid db it = .ok { insertItemRow oid db it with
      products := applyStock db.products pid (pr.stock_quantity - it.quantity) } := by
    unfold processItem
    simp only [hg, hf]
    rw [if_neg (Nat.not_lt.mpr hs)]
  refine ⟨_, hpi, ?_, ?_⟩
  · show findActiveProduct (applyStock db.products pid (pr.stock_quantity - it.quantity)) pid = _
    rw [findActiveProduct_applyStock, hf]
    simp only [Option.map_some', if_pos hcond]
  · intro n
    unfold stockStatusOf
    refine ⟨fun h1 => by simp [h1], fun h1 h2 => ?_, fun h1 => ?_⟩
    · rw [if_neg (by omega), if_pos h2]
    · rw [if_neg (by omega), if_neg (by omega)]

/-- Witness for C3: product 7 with stock 5 and a requested quantity of 3
leave quantity 2 with status `low_stock` (the spec section 8 example). -/
theorem stock_update_pure_of_new_quantity_witness :
    ∃ db', processItem 9 wDB wItem = .ok db' ∧
      findActiveProduct db'.products 7 =
        some { wProduct with stock_quantity := 2, stock_status := .low_stock } ∧
      (∀ n : Nat, (n = 0 → stockStatusOf n = .out_of_stock) ∧
        (0 < n → n ≤ 10 → stockStatusOf n = .low_stock) ∧
        (10 < n → stockStatusOf n = .in_stock)) :=
  stock_update_pure_of_new_quantity 9 wDB wItem 7 wProduct rfl rfl (by decide)

/-- C8: a cart item whose product reference does not resolve (no id, id 0,
unknown id, or soft-deleted product) still inserts its order-item snapshot
and the checkout proceeds, but nothing else — in particular no stock
mutation — happens. -/
theorem order_item_without_product_ref (oid : Nat) (db : DB) (it : CartItem)
    (h : stockGuardId it = none ∨
         ∀ pid, stockGuardId it = some pid → findActiveProduct db.products pid = none) :
    processItem oid db it =
      .ok { db with order_items := db.order_items ++ [mkOrderItemRow oid it] } := by
  rcases h with h | h
  · unfold processItem
    simp only [h]
    rfl
  · unfold processItem
    cases hg : stockGuardId it with
    | none => rfl
    | some pid =>
      simp only [h pid hg]
      rfl

/-- Witness for C8: an item without a product id only adds its snapshot
row. -/
theorem order_item_without_product_ref_witness :
    processItem 9 wDB wItemNoRef =
      .ok { wDB with order_items := wDB.order_items ++ [mkOrderItemRow 9 wItemNoRef] } :=
  order_item_without_product_ref 9 wDB wItemNoRef (Or.inl rfl)

theorem statusFromString_statusString (s : OrderStatus) :
    statusFromString (statusString s) = some s := by
  cases s <;> rfl

/-- C5: for an existing order, requesting its current status again fails
with the already-in-this-status error; requesting a pair outside the
transition table fails naming the reachable targets, leaving the order
untouched; and a request whose status string is unknown (or absent) is
always rejected. -/
theorem status_update_rejections
    (db : DB) (oid : Nat) (ord : OrderRow) (notes : Option String)
    (cb : String) (now : Nat) (tx nf : Bool)
    (hord : db.orders.find? (fun o => o.id == oid) = some ord) :
    (updateOrderStatus db oid (some (statusString ord.status)) notes cb now tx nf
       = (.alreadyInStatus, db)) ∧
    (∀ st : OrderStatus, st ≠ ord.status →
       isValidStatusTransition (some ord.status) st = false →
       updateOrderStatus db oid (some (statusString st)) notes cb now tx nf
         = (.invalidTransition (reachableTargets ord.status), db)) ∧
    (∀ s : String, statusFromString s = none →
       updateOrderStatus db oid (some s) notes cb now tx nf = (.invalidStatus, db)) ∧
    updateOrderStatus db oid none notes cb now tx nf = (.invalidStatus, db) := by
  refine ⟨?_, ?_, ?_, ?_⟩
  · unfold updateOrderStatus
    simp only [Option.some_bind, statusFromString_statusString, hord, if_pos rfl]
    simp
  · intro st hne hinv
    unfold updateOrderStatus
    simp only [Option.some_bind, statusFromString_statusString, hord]
    rw [if_neg (fun hc => hne (hc.symm)), hinv]
    simp
  · intro s hs
    unfold updateOrderStatus
    simp only [Option.some_bind, hs]
  · unfold updateOrderStatus
    simp only [Option.none_bind]

/-- Witness for C5 on the fixture order (status `order_received`): asking
for `order_received` again fails as already-in-status, asking for
`completed` fails naming the reachable targets `preparing` and `cancelled`,
and the unknown string "bogus" is rejected. -/
theorem status_update_rejections_witness :
    (updateOrderStatus wDBOrders 1 (some "order_received") none "admin" 5 true true
       = (.alreadyInStatus, wDBOrders)) ∧
    (updateOrderStatus wDBOrders 1 (some "completed") none "admin" 5 true true
       = (.invalidTransition [.preparing, .cancelled], wDBOrders)) ∧
    (updateOrderStatus wDBOrders 1 (some "bogus") none "admin" 5 true true
       = (.invalidStatus, wDBOrders)) ∧
    (updateOrderStatus wDBOrders 1 none none "admin" 5 true true
       = (.invalidStatus, wDBOrders)) := by
  have h := status_update_rejections wDBOrders 1 wOrder none "admin" 5 true true rfl
  exact ⟨h.1, h.2.1 .completed (by decide) (by decide), h.2.2.1 "bogus" (by decide), h.2.2.2⟩

/-- C6: an allowed transition on an existing order updates the order's
status and `updated_at` and appends exactly one history row recording
(old, new, actor, note) — both effects in the same transaction, so a failed
commit leaves neither — while the notification outcome can only extend the
notification log: the response, the orders table and the history are the
same whether or not the email is delivered. -/
theorem status_update_success_atomic
    (db : DB) (oid : Nat) (ord : OrderRow) (s : String) (st : OrderStatus)
    (notes : Option String) (cb : String) (now : Nat)
    (hord : db.orders.find? (fun o => o.id == oid) = some ord)
    (hs : statusFromString s = some st)
    (hne : ord.status ≠ st)
    (hvalid : isValidStatusTransition (some ord.status) st = true) :
    (∀ nf : Bool,
      updateOrderStatus db oid (some s) notes cb now true nf =
        (.updated { ord with status := st, updated_at := now },
         { db with
             orders := db.orders.map (fun o =>
               if o.id == oid then { o with status := st, updated_at := now } else o),
             order_status_history := db.order_status_history ++
               [{ order_id := oid, old_status := some ord.status, new_status := st,
                  changed_by := cb, notes := jsStrOrNull notes }],
             notifications := if nf then db.notifications ++ [(oid, ord.status, st)]
               else db.notifications })) ∧
    (∀ nf : Bool,
      updateOrderStatus db oid (some s) notes cb now false nf = (.serverError, db)) ∧
    (∀ nf nf' tx : Bool,
      (updateOrderStatus db oid (some s) notes cb now tx nf).1 =
        (updateOrderStatus db oid (some s) notes cb now tx nf').1 ∧
      (updateOrderStatus db oid (some s) notes cb now tx nf).2.orders =
        (updateOrderStatus db oid (some s) notes cb now tx nf').2.orders ∧
      (updateOrderStatus db oid (some s) notes cb now tx nf).2.order_status_history =
        (updateOrderStatus db oid (some s) notes cb now tx nf').2.order_status_history) := by
  have hnc : ¬ ord.status = st := hne
  refine ⟨?_, ?_, ?_⟩
  · intro nf
    unfold updateOrderStatus
    simp only [Option.some_bind, hs, hord]
    rw [if_neg hnc, hvalid]
    cases nf <;> simp
  · intro nf
    unfold updateOrderStatus
    simp only [Option.some_bind, hs, hord]
    rw [if_neg hnc, hvalid]
    simp
  · intro nf nf' tx
    unfold updateOrderStatus
    simp only [Option.some_bind, hs, hord]
    simp only [if_neg hnc, hvalid]
    cases tx <;> cases nf <;> cases nf' <;> simp

/-- Witness for C6: moving the fixture order from `order_received` to
`preparing` updates the order, appends one history row and logs the email;
a failed commit leaves the store unchanged; delivered or undelivered email
gives the same history. -/
theorem status_update_success_atomic_witness :
    updateOrderStatus wDBOrders 1 (some "preparing") none "admin" 5 true true =
      (.updated { wOrder with status := .preparing, updated_at := 5 },
       { wDBOrders with
           orders := [{ wOrder with status := .preparing, updated_at := 5 }],
           order_status_history := [{ order_id := 1, old_status := some .order_received,
                                      new_status := .preparing, changed_by := "admin",
                                      notes := none }],
           notifications := [(1, .order_received, .preparing)] }) ∧
    updateOrderStatus wDBOrders 1 (some "preparing") none "admin" 5 false true =
      (.serverError, wDBOrders) ∧
    (updateOrderStatus wDBOrders 1 (some "preparing") none "admin" 5 true false).2.order_status_history =
      (updateOrderStatus wDBOrders 1 (some "preparing") none "admin" 5 true true).2.order_status_history := by
  have h := status_update_success_atomic wDBOrders 1 wOrder "preparing" .preparing
    none "admin" 5 rfl rfl (by decide) (by decide)
  exact ⟨h.1 true, h.2.1 true, (h.2.2 false true true).2.2⟩

/-- C9: creating a brand whose trimmed name matches an existing row restores
that row in place (same id, `is_deleted` flipped back, no new row) when it
was soft-deleted, and is rejected as a duplicate when the row is live; in
both cases the table gains no row, and the restored row keeps its original
id. -/
theorem brand_recreate_restores
    (brands : List Brand) (s : String) (newId : Nat) (b : Brand)
    (hs : jsTrim s ≠ "")
    (hfind : brands.find? (fun x => x.name == jsTrim s) = some b) :
    createBrand brands (some s) newId =
      ((if b.is_deleted then .restored { b with is_deleted := false } else .duplicate),
       (if b.is_deleted then
          brands.map (fun x => if x.id == b.id then { x with is_deleted := false } else x)
        else brands)) ∧
    (createBrand brands (some s) newId).2.length = brands.length ∧
    (b.is_deleted = true →
      { b with is_deleted := false } ∈ (createBrand brands (some s) newId).2) := by
  have hsne : s ≠ "" := fun h => hs (by rw [h]; rfl)
  have hres : createBrand brands (some s) newId =
      ((if b.is_deleted then .restored { b with is_deleted := false } else .duplicate),
       (if b.is_deleted then
          brands.map (fun x => if x.id == b.id then { x with is_deleted := false } else x)
        else brands)) := by
    cases hb : b.is_deleted
    · simp [createBrand, hsne, hs, hfind, hb]
    · simp [createBrand, hsne, hs, hfind, hb]
  refine ⟨hres, ?_, ?_⟩
  · rw [hres]
    cases hb : b.is_deleted <;> simp [hb]
  · intro hdel
    rw [hres]
    simp only [hdel, if_true]
    exact List.mem_map.mpr ⟨b, List.mem_of_find?_eq_some hfind, by simp⟩

/-- Witness for C9: re-submitting " ABB " (trimmed to the soft-deleted
brand's name) restores row id 1 with no new row, while re-submitting the
live brand name SIEMENS is rejected as a duplicate. -/
theorem brand_recreate_restores_witness :
    createBrand [wBrandDeleted] (some " ABB ") 9 =
      (.restored { wBrandDeleted with is_deleted := false },
       [{ wBrandDeleted with is_deleted := false }]) ∧
    createBrand [wBrandLive] (some "SIEMENS") 9 = (.duplicate, [wBrandLive]) := by
  have h1 := brand_recreate_restores [wBrandDeleted] " ABB " 9 wBrandDeleted
    (by decide) (by decide)
  have h2 := brand_recreate_restores [wBrandLive] "SIEMENS" 9 wBrandLive
    (by decide) (by decide)
  exact ⟨h1.1, h2.1⟩

theorem topFieldsOk_somes {p : CheckoutPayload} (h : topFieldsOk p = true) :
    p.personalInfo.isSome = true ∧ p.deliveryAddress.isSome = true ∧
    p.paymentInfo.isSome = true ∧ p.cartItems.isSome = true ∧
    truthyNum p.totalPrice = true ∧ p.kdv.isSome = true ∧
    truthyNum p.grandTotal = true := by
  unfold topFieldsOk at h
  simp only [Bool.and_eq_true] at h
  exact ⟨h.1.1.1.1.1.1, h.1.1.1.1.1.2, h.1.1.1.1.2, h.1.1.1.2, h.1.1.2, h.1.2, h.2⟩

/-- C7: checkout rejects with a client error and no surviving write whenever
a top-level section is missing, the personal, address or card section lacks
a required field, or the cart is not a list or is empty. -/
theorem checkout_structural_validation (db : DB) (onum : String) (uid oid now : Nat) :
    (∀ p : CheckoutPayload,
       p.personalInfo = none ∨ p.deliveryAddress = none ∨ p.paymentInfo = none ∨
       p.cartItems = none ∨ p.totalPrice = none ∨ p.kdv = none ∨ p.grandTotal = none →
       checkout db p onum uid oid now = (.missingFields, db)) ∧
    (∀ p pi, topFieldsOk p = true → p.personalInfo = some pi →
       personalInfoOk pi = false →
       checkout db p onum uid oid now = (.missingPersonalInfo, db)) ∧
    (∀ p pi da, topFieldsOk p = true → p.personalInfo = some pi →
       personalInfoOk pi = true → p.deliveryAddress = some da →
       deliveryAddressOk da = false →
       checkout db p onum uid oid now = (.missingDeliveryAddress, db)) ∧
    (∀ p pi da pay, topFieldsOk p = true → p.personalInfo = some pi →
       personalInfoOk pi = true → p.deliveryAddress = some da →
       deliveryAddressOk da = true → p.paymentInfo = some pay →
       paymentInfoOk pay = false →
       checkout db p onum uid oid now = (.missingPaymentInfo, db)) ∧
    (∀ p pi da pay, topFieldsOk p = true → p.personalInfo = some pi →
       personalInfoOk pi = true → p.deliveryAddress = some da →
       deliveryAddressOk da = true → p.paymentInfo = some pay →
       paymentInfoOk pay = true → p.cartItems = some .nonList →
       checkout db p onum uid oid now = (.emptyCart, db)) ∧
    (∀ p pi da pay, topFieldsOk p = true → p.personalInfo = some pi →
       personalInfoOk pi = true → p.deliveryAddress = some da →
       deliveryAddressOk da = true → p.paymentInfo = some pay →
       paymentInfoOk pay = true → p.cartItems = some (.items []) →
       checkout db p onum uid oid now = (.emptyCart, db)) := by
  refine ⟨?_, ?_, ?_, ?_, ?_, ?_⟩
  · intro p h
    have htop : topFieldsOk p = false := by
      unfold topFieldsOk
      rcases h with h | h | h | h | h | h | h <;> simp [h, truthyNum]
    simp [checkout, htop]
  · intro p pi htop hpi hbad
    obtain ⟨_, h2, h3, h4, _⟩ := topFieldsOk_somes htop
    obtain ⟨da, hda⟩ := Option.isSome_iff_exists.mp h2
    obtain ⟨pay, hpay⟩ := Option.isSome_iff_exists.mp h3
    obtain ⟨cart, hcart⟩ := Option.isSome_iff_exists.mp h4
    simp [checkout, htop, hpi, hda, hpay, hcart, hbad]
  · intro p pi da htop hpi hok hda hbad
    obtain ⟨_, _, h3, h4, _⟩ := topFieldsOk_somes htop
    obtain ⟨pay, hpay⟩ := Option.isSome_iff_exists.mp h3
    obtain ⟨cart, hcart⟩ := Option.isSome_iff_exists.mp h4
    simp [checkout, htop, hpi, hda, hpay, hcart, hok, hbad]
  · intro p pi da pay htop hpi hok hda hok2 hpay hbad
    obtain ⟨_, _, _, h4, _⟩ := topFieldsOk_somes htop
    obtain ⟨cart, hcart⟩ := Option.isSome_iff_exists.mp h4
    simp [checkout, htop, hpi, hda, hpay, hcart, hok, hok2, hbad]
  · intro p pi da pay htop hpi hok hda hok2 hpay hok3 hcart
    simp [checkout, htop, hpi, hda, hpay, hcart, hok, hok2, hok3]
  · intro p pi da pay htop hpi hok hda hok2 hpay hok3 hcart
    simp [checkout, htop, hpi, hda, hpay, hcart, hok, hok2, hok3]

/-- Witness for C7: each structural defect on the otherwise valid fixture
payload is rejected with the corresponding error and the store unchanged. -/
theorem checkout_structural_validation_witness :
    checkout wDB { wPayload with personalInfo := none } "MYE-1" 100 200 0
      = (.missingFields, wDB) ∧
    checkout wDB { wPayload with personalInfo := some { wPersonal with email := none } }
      "MYE-1" 100 200 0 = (.missingPersonalInfo, wDB) ∧
    checkout wDB { wPayload with deliveryAddress := some { wAddress with city := none } }
      "MYE-1" 100 200 0 = (.missingDeliveryAddress, wDB) ∧
    checkout wDB { wPayload with paymentInfo := some { wCard with cvv := none } }
      "MYE-1" 100 200 0 = (.missingPaymentInfo, wDB) ∧
    checkout wDB { wPayload with cartItems := some .nonList } "MYE-1" 100 200 0
      = (.emptyCart, wDB) ∧
    checkout wDB { wPayload with cartItems := some (.items []) } "MYE-1" 100 200 0
      = (.emptyCart, wDB) := by
  have h := checkout_structural_validation wDB "MYE-1" 100 200 0
  exact ⟨h.1 _ (Or.inl rfl),
    h.2.1 _ _ (by decide) rfl (by decide),
    h.2.2.1 _ _ _ (by decide) rfl (by decide) rfl (by decide),
    h.2.2.2.1 _ _ _ _ (by decide) rfl (by decide) rfl (by decide) rfl (by decide),
    h.2.2.2.2.1 _ _ _ _ (by decide) rfl (by decide) rfl (by decide) rfl (by decide) rfl,
    h.2.2.2.2.2 _ _ _ _ (by decide) rfl (by decide) rfl (by decide) rfl (by decide) rfl⟩

/-- C10: the top-level presence check treats a zero `totalPrice` or
`grandTotal` as missing (JavaScript falsiness), returning the
missing-fields error, while `kdv` is compared against undefined only, so a
zero `kdv` passes the presence check and checkout proceeds past it. -/
theorem checkout_zero_totals_presence (db : DB) (onum : String) (uid oid now : Nat) :
    (∀ p : CheckoutPayload, p.totalPrice = some 0 →
       checkout db p onum uid oid now = (.missingFields, db)) ∧
    (∀ p : CheckoutPayload, p.grandTotal = some 0 →
       checkout db p onum uid oid now = (.missingFields, db)) ∧
    (∀ p : CheckoutPayload, p.kdv = some 0 →
       p.personalInfo.isSome = true → p.deliveryAddress.isSome = true →
       p.paymentInfo.isSome = true → p.cartItems.isSome = true →
       truthyNum p.totalPrice = true → truthyNum p.grandTotal = true →
       topFieldsOk p = true ∧
       (checkout db p onum uid oid now).1 ≠ .missingFields) := by
  refine ⟨?_, ?_, ?_⟩
  · intro p h
    have htop : topFieldsOk p = false := by
      unfold topFieldsOk
      simp [h, truthyNum]
    simp [checkout, htop]
  · intro p h
    have htop : topFieldsOk p = false := by
      unfold topFieldsOk
      simp [h, truthyNum]
    simp [checkout, htop]
  · intro p hkdv h1 h2 h3 h4 h5 h6
    obtain ⟨pi, hpi⟩ := Option.isSome_iff_exists.mp h1
    obtain ⟨da, hda⟩ := Option.isSome_iff_exists.mp h2
    obtain ⟨pay, hpay⟩ := Option.isSome_iff_exists.mp h3
    obtain ⟨cart, hcart⟩ := Option.isSome_iff_exists.mp h4
    have htop : topFieldsOk p = true := by
      unfold topFieldsOk
      simp [hpi, hda, hpay, hcart, h5, h6, hkdv]
    refine ⟨htop, ?_⟩
    unfold checkout
    rw [if_neg (by simp [htop])]
    rw [hpi, hda, hpay, hcart]
    dsimp only
    repeat' split
    all_goals simp

/-- Witness for C10: zero totals are rejected as missing while a zero `kdv`
passes the presence check on the fixture payload. -/
theorem checkout_zero_totals_presence_witness :
    checkout wDB { wPayload with totalPrice := some 0 } "MYE-1" 100 200 0
      = (.missingFields, wDB) ∧
    checkout wDB { wPayload with grandTotal := some 0 } "MYE-1" 100 200 0
      = (.missingFields, wDB) ∧
    (checkout wDB { wPayload with kdv := some 0 } "MYE-1" 100 200 0).1
      ≠ .missingFields := by
  have h := checkout_zero_totals_presence wDB "MYE-1" 100 200 0
  exact ⟨h.1 _ rfl, h.2.1 _ rfl,
    (h.2.2 { wPayload with kdv := some 0 } rfl rfl rfl rfl rfl (by decide)
      (by decide)).2⟩

/-- C2: a checkout whose cart contains an item referencing a live product
with insufficient stock aborts the whole transaction: the store is returned
exactly as it was (no order, items, address, payment row or stock mutation,
including writes for earlier items), and the response is the 400
insufficient-stock error naming an offending cart item and the available
quantity, which is strictly below the requested one. -/
theorem checkout_insufficient_stock_rolls_back
    (db : DB) (p : CheckoutPayload) (onum : String) (uid oid now : Nat)
    (pi : PersonalInfo) (da : DeliveryAddressInput) (pay : PaymentInput)
    (l : List CartItem)
    (hpi : p.personalInfo = some pi) (hda : p.deliveryAddress = some da)
    (hpay : p.paymentInfo = some pay) (hcart : p.cartItems = some (.items l))
    (htop : topFieldsOk p = true) (hpiok : personalInfoOk pi = true)
    (hdaok : deliveryAddressOk da = true) (hpayok : paymentInfoOk pay = true)
    (hbad : ∃ it ∈ l, itemInsufficient db it) :
    ∃ name avail req,
      checkout db p onum uid oid now = (.insufficientStock name avail req, db) ∧
      avail < req ∧
      CheckoutResponse.statusCode (.insufficientStock name avail req) = 400 ∧
      ∃ it ∈ l, it.name = name := by
  have hprod : (checkoutWrites db p pi da onum uid oid now).products = db.products :=
    (checkoutWrites_fields db p pi da onum uid oid now).1
  have hbad' : ∃ it ∈ l, itemInsufficient (checkoutWrites db p pi da onum uid oid now) it := by
    obtain ⟨it, hmem, pid, pr, hg, hf, hlt⟩ := hbad
    exact ⟨it, hmem, pid, pr, hg, hprod ▸ hf, hlt⟩
  obtain ⟨e, he, hlt, it2, hmem2, hname⟩ :=
    @processItems_insufficient oid l (checkoutWrites db p pi da onum uid oid now) hbad'
  have hlne : l.isEmpty = false := by
    obtain ⟨it, hmem, _⟩ := hbad
    cases l
    · cases hmem
    · rfl
  refine ⟨e.1, e.2.1, e.2.2, ?_, hlt, rfl, it2, hmem2, hname⟩
  unfold checkout
  rw [if_neg (by simp [htop])]
  rw [hpi, hda, hpay, hcart]
  dsimp only
  rw [if_neg (by simp [hpiok]), if_neg (by simp [hdaok]), if_neg (by simp [hpayok]),
    if_neg (by simp [hlne]), he]

/-- Witness for C2: the fixture cart (3 units of product 7) against stock 2
is rejected with the stock error and the store unchanged (spec section 8
example). -/
theorem checkout_insufficient_stock_rolls_back_witness :
    ∃ name avail req,
      checkout wDBLow wPayload "MYE-1" 100 200 0
        = (.insufficientStock name avail req, wDBLow) ∧
      avail < req ∧
      CheckoutResponse.statusCode (.insufficientStock name avail req) = 400 ∧
      ∃ it ∈ [wItem], it.name = name :=
  checkout_insufficient_stock_rolls_back wDBLow wPayload "MYE-1" 100 200 0
    wPersonal wAddress wCard [wItem] rfl rfl rfl rfl (by decide) (by decide)
    (by decide) (by decide)
    ⟨wItem, by simp, 7, { wProduct with stock_quantity := 2 }, rfl, rfl, by decide⟩

/-- C1: a 201 checkout response implies the state gained exactly one order
row (status `order_received`), one delivery address, one payment row with
status completed, and one order-item row per cart item, all keyed to the
fresh order id; the response carries the order id, order number and grand
total; and the stored state is the same for any card data passing the shape
check, so no card field can be present anywhere in storage. -/
theorem checkout_success_rows
    (db : DB) (p : CheckoutPayload) (onum : String) (uid oid now : Nat)
    (rid : Nat) (rnum : String) (rtot : Int) (db' : DB)
    (h : checkout db p onum uid oid now = (.created rid rnum rtot, db'))
    (hfo : ∀ o ∈ db.orders, o.id ≠ oid)
    (hfd : ∀ r ∈ db.delivery_addresses, r.order_id ≠ oid)
    (hfp : ∀ r ∈ db.payment_info, r.order_id ≠ oid)
    (hfi : ∀ r ∈ db.order_items, r.order_id ≠ oid) :
    rid = oid ∧ rnum = onum ∧ some rtot = p.grandTotal ∧
    CheckoutResponse.statusCode (.created rid rnum rtot) = 201 ∧
    db'.orders.countP (fun o => o.id == oid) = 1 ∧
    (∀ o ∈ db'.orders, o.id = oid → o.status = .order_received) ∧
    db'.delivery_addresses.countP (fun r => r.order_id == oid) = 1 ∧
    db'.payment_info.countP (fun r => r.order_id == oid) = 1 ∧
    (∀ r ∈ db'.payment_info, r.order_id = oid → r.payment_status = "completed") ∧
    (∃ l, p.cartItems = some (.items l) ∧
       db'.order_items.countP (fun r => r.order_id == oid) = l.length) ∧
    (∀ pay', paymentInfoOk pay' = true →
       checkout db (setPaymentInfo p pay') onum uid oid now
         = (.created rid rnum rtot, db')) := by
  obtain ⟨hrid, hrnum, hrtot, htop, pi, da, pay, l, hpi, hda, hpay, hcart,
    hpiok, hdaok, hpayok, hlne, hok⟩ := checkout_created_inversion h
  obtain ⟨q1, q2, q3, q4, q5, q6, q7⟩ := processItems_ok_tables hok
  obtain ⟨w1, w2, w3, w4, w5, w6, w7⟩ := checkoutWrites_fields db p pi da onum uid oid now
  have horders : db'.orders =
      db.orders ++ [newOrderRow p onum (upsertUser db pi uid).1 oid now] := q2.trans w2
  have hdeliv : db'.delivery_addresses = db.delivery_addresses ++
      [{ order_id := oid
         address := da.address.getD ""
         city := da.city.getD ""
         district := da.district.getD ""
         postal_code := jsStrOrNull da.postalCode }] := q3.trans w4
  have hpaym : db'.payment_info = db.payment_info ++
      [{ order_id := oid, payment_status := "completed" }] := q4.trans w5
  have hitems : db'.order_items = db.order_items ++ l.map (mkOrderItemRow oid) := by
    rw [q7, w3]
  have hzero_o : db.orders.countP (fun o => o.id == oid) = 0 :=
    List.countP_eq_zero.mpr (fun o ho => by simpa using hfo o ho)
  have hzero_d : db.delivery_addresses.countP (fun r => r.order_id == oid) = 0 :=
    List.countP_eq_zero.mpr (fun r hr => by simpa using hfd r hr)
  have hzero_p : db.payment_info.countP (fun r => r.order_id == oid) = 0 :=
    List.countP_eq_zero.mpr (fun r hr => by simpa using hfp r hr)
  have hzero_i : db.order_items.countP (fun r => r.order_id == oid) = 0 :=
    List.countP_eq_zero.mpr (fun r hr => by simpa using hfi r hr)
  have hgt : some rtot = p.grandTotal := by
    have htr := (topFieldsOk_somes htop).2.2.2.2.2.2
    cases hg : p.grandTotal with
    | none => rw [hg] at htr; simp [truthyNum] at htr
    | some g => rw [hrtot, hg]; rfl
  refine ⟨hrid, hrnum, hgt, rfl, ?_, ?_, ?_, ?_, ?_, ⟨l, hcart, ?_⟩, ?_⟩
  · rw [horders, List.countP_append, hzero_o]
    simp [newOrderRow, List.countP_cons]
  · intro o ho hid
    rw [horders] at ho
    rcases List.mem_append.mp ho with hmem | hmem
    · exact absurd hid (hfo o hmem)
    · rw [List.mem_singleton.mp hmem]
      rfl
  · rw [hdeliv, List.countP_append, hzero_d]
    simp [List.countP_cons]
  · rw [hpaym, List.countP_append, hzero_p]
    simp [List.countP_cons]
  · intro r hr hid
    rw [hpaym] at hr
    rcases List.mem_append.mp hr with hmem | hmem
    · exact absurd hid (hfp r hmem)
    · rw [List.mem_singleton.mp hmem]
  · rw [hitems, List.countP_append, hzero_i, List.countP_map]
    have : ∀ a ∈ l, ((fun r : OrderItemRow => r.order_id == oid) ∘ mkOrderItemRow oid) a = true := by
      intro a _
      simp [mkOrderItemRow, Function.comp]
    rw [Nat.zero_add, List.countP_eq_length.mpr this]
  · intro pay' hok'
    exact (checkout_payment_irrelevant db p onum uid oid now pay pay' hpay hpayok hok').trans h

/-- Witness for C1: the successful fixture checkout creates exactly one
order, one address, one payment row and one order-item row for order id
200. -/
theorem checkout_success_rows_witness :
    wDBAfter.orders.countP (fun o => o.id == 200) = 1 ∧
    wDBAfter.delivery_addresses.countP (fun r => r.order_id == 200) = 1 ∧
    wDBAfter.payment_info.countP (fun r => r.order_id == 200) = 1 ∧
    (∃ l, wPayload.cartItems = some (.items l) ∧
       wDBAfter.order_items.countP (fun r => r.order_id == 200) = l.length) := by
  have h := checkout_success_rows wDB wPayload "MYE-1" 100 200 0 200 "MYE-1" 201
    wDBAfter rfl (by decide) (by decide) (by decide) (by decide)
  obtain ⟨_, _, _, _, c5, _, c7, c8, _, c10, _⟩ := h
  exact ⟨c5, c7, c8, c10⟩
